import Mathlib

/-!
Verification development for the Dashboard_Pi telemetry core: a shallow
embedding of the alert evaluator (`backend/app/collector.py`), the WebSocket
connection registry (`backend/app/websocket.py`), and the background sampling,
retention and heartbeat loops (`backend/app/main.py`), together with theorems
about them.

Modelling conventions:
* Python floats are modelled as rationals (`ℚ`); the claims under study are
  about comparisons and control flow, not about rounding of binary floats.
* The formatted alert strings of `check_alerts` are modelled as tagged values
  (`Alert`) carrying the numeric reading embedded in the message, which is the
  information the string interpolation preserves.
* Optional values (`cpu_temp`) are `Option ℚ`; the Python truthiness test
  `if metrics["cpu_temp"] and ...` is translated literally: `None` and `0.0`
  are both falsy.
* WebSocket handles are opaque; they are modelled by `ℕ`.  The outcome of a
  `send` is supplied by an environment function `sendOk : ℕ → Bool`.
-/

/-- The alert-relevant fields of `Settings` in `backend/app/config.py`. -/
structure Settings where
  collection_interval : ℕ
  history_retention_hours : ℤ
  ws_heartbeat_interval : ℕ
  cpu_alert_threshold : ℚ
  ram_alert_threshold : ℚ
  disk_alert_threshold : ℚ
  temp_alert_threshold : ℚ
deriving DecidableEq

/-- The default values declared in `backend/app/config.py`. -/
def defaultSettings : Settings :=
  { collection_interval := 2
    history_retention_hours := 24
    ws_heartbeat_interval := 30
    cpu_alert_threshold := 80
    ram_alert_threshold := 80
    disk_alert_threshold := 90
    temp_alert_threshold := 70 }

/-- The numeric fields of the metrics dictionary built by `collect_metrics`
in `backend/app/collector.py` (everything except the derived `alerts` list
and the formatted uptime string). -/
structure Metrics where
  cpu_percent : ℚ
  ram_percent : ℚ
  ram_used_gb : ℚ
  ram_total_gb : ℚ
  disk_percent : ℚ
  disk_used_gb : ℚ
  disk_total_gb : ℚ
  cpu_temp : Option ℚ
  uptime_seconds : ℤ
deriving DecidableEq

/-- One alert message produced by `check_alerts`, tagged by which of the four
threshold checks produced it and carrying the interpolated reading. -/
inductive Alert
  | cpuHigh (v : ℚ)
  | ramHigh (v : ℚ)
  | diskFull (v : ℚ)
  | tempHigh (v : ℚ)
deriving DecidableEq

/-- `check_alerts` from `backend/app/collector.py`: four independent threshold
checks appending to one list, in the source order CPU, RAM, disk, temperature.
The temperature check translates the Python condition
`metrics["cpu_temp"] and metrics["cpu_temp"] >= settings.temp_alert_threshold`
literally: a missing (`none`) or zero reading is falsy and short-circuits the
comparison. -/
def check_alerts (metrics : Metrics) (settings : Settings) : List Alert :=
  let alerts : List Alert := []
  let alerts :=
    if metrics.cpu_percent ≥ settings.cpu_alert_threshold then
      alerts ++ [Alert.cpuHigh metrics.cpu_percent]
    else alerts
  let alerts :=
    if metrics.ram_percent ≥ settings.ram_alert_threshold then
      alerts ++ [Alert.ramHigh metrics.ram_percent]
    else alerts
  let alerts :=
    if metrics.disk_percent ≥ settings.disk_alert_threshold then
      alerts ++ [Alert.diskFull metrics.disk_percent]
    else alerts
  let alerts :=
    match metrics.cpu_temp with
    | none => alerts
    | some v =>
        if v ≠ 0 ∧ v ≥ settings.temp_alert_threshold then
          alerts ++ [Alert.tempHigh v]
        else alerts
  alerts

/-- The CPU check's condition in `check_alerts`. -/
def cpuBreached (m : Metrics) (s : Settings) : Prop :=
  m.cpu_percent ≥ s.cpu_alert_threshold

instance (m : Metrics) (s : Settings) : Decidable (cpuBreached m s) :=
  inferInstanceAs (Decidable (_ ≥ _))

/-- The RAM check's condition in `check_alerts`. -/
def ramBreached (m : Metrics) (s : Settings) : Prop :=
  m.ram_percent ≥ s.ram_alert_threshold

instance (m : Metrics) (s : Settings) : Decidable (ramBreached m s) :=
  inferInstanceAs (Decidable (_ ≥ _))

/-- The disk check's condition in `check_alerts`. -/
def diskBreached (m : Metrics) (s : Settings) : Prop :=
  m.disk_percent ≥ s.disk_alert_threshold

instance (m : Metrics) (s : Settings) : Decidable (diskBreached m s) :=
  inferInstanceAs (Decidable (_ ≥ _))

/-- The temperature check's condition in `check_alerts`: the reading must be
present, truthy (nonzero) and at or above the threshold. -/
def tempBreached (m : Metrics) (s : Settings) : Prop :=
  match m.cpu_temp with
  | none => False
  | some v => v ≠ 0 ∧ v ≥ s.temp_alert_threshold

instance (m : Metrics) (s : Settings) : Decidable (tempBreached m s) := by
  unfold tempBreached
  cases m.cpu_temp with
  | none => exact inferInstanceAs (Decidable False)
  | some v => exact inferInstanceAs (Decidable (_ ∧ _))

/-- Normal form of `check_alerts`: the output is the concatenation of four
independent segments in the fixed source order CPU, RAM, disk, temperature,
each segment holding exactly one alert when its metric's check fires and
nothing otherwise. -/
theorem check_alerts_eq_segments (m : Metrics) (s : Settings) :
    check_alerts m s =
      (if cpuBreached m s then [Alert.cpuHigh m.cpu_percent] else [])
        ++ (if ramBreached m s then [Alert.ramHigh m.ram_percent] else [])
        ++ (if diskBreached m s then [Alert.diskFull m.disk_percent] else [])
        ++ (if tempBreached m s then [Alert.tempHigh (m.cpu_temp.getD 0)] else []) := by
  cases h : m.cpu_temp with
  | none =>
      have ht : ¬ tempBreached m s := by simp [tempBreached, h]
      simp only [check_alerts, cpuBreached, ramBreached, diskBreached, h]
      rw [if_neg ht]
      split_ifs <;> simp
  | some v =>
      have ht : tempBreached m s ↔ v ≠ 0 ∧ v ≥ s.temp_alert_threshold := by
        simp [tempBreached, h]
      simp only [check_alerts, cpuBreached, ramBreached, diskBreached, h, Option.getD_some]
      by_cases hv : v ≠ 0 ∧ v ≥ s.temp_alert_threshold
      · rw [if_pos hv, if_pos (ht.mpr hv)]
        split_ifs <;> simp
      · rw [if_neg hv, if_neg (fun c => hv (ht.mp c))]
        split_ifs <;> simp

/-- Recognizer for the CPU alert message. -/
def isCpuAlert : Alert → Bool
  | Alert.cpuHigh _ => true
  | _ => false

/-- Recognizer for the RAM alert message. -/
def isRamAlert : Alert → Bool
  | Alert.ramHigh _ => true
  | _ => false

/-- Recognizer for the disk alert message. -/
def isDiskAlert : Alert → Bool
  | Alert.diskFull _ => true
  | _ => false

/-- Recognizer for the temperature alert message. -/
def isTempAlert : Alert → Bool
  | Alert.tempHigh _ => true
  | _ => false

/-- The spec's worked example: CPU 85 %, RAM 50 %, disk 95 %, no temperature
sensor reading. -/
def exampleMetricsC2 : Metrics :=
  { cpu_percent := 85
    ram_percent := 50
    ram_used_gb := 4
    ram_total_gb := 8
    disk_percent := 95
    disk_used_gb := 47
    disk_total_gb := 50
    cpu_temp := none
    uptime_seconds := 1000 }

/-- A snapshot whose temperature reading is present but exactly zero and whose
other readings are far below the default thresholds. -/
def zeroTempReadings : Metrics :=
  { cpu_percent := 10
    ram_percent := 20
    ram_used_gb := 1
    ram_total_gb := 8
    disk_percent := 30
    disk_used_gb := 15
    disk_total_gb := 50
    cpu_temp := some 0
    uptime_seconds := 42 }

/-- The default settings with the temperature threshold lowered to zero. -/
def zeroTempSettings : Settings :=
  { defaultSettings with temp_alert_threshold := 0 }

/-- A snapshot with a hot (nonzero) temperature reading of 90 degrees. -/
def hotReadings : Metrics :=
  { zeroTempReadings with cpu_temp := some 90 }

/-- C2: for every snapshot and every thresholds configuration, `check_alerts`
returns its alerts in the fixed order CPU, RAM, disk, temperature, with exactly
one entry per breached metric and none for an unbreached one; on the spec's
example (CPU 85, RAM 50, disk 95 against thresholds 80/80/90/70) it returns
exactly the CPU alert followed by the disk alert. -/
theorem check_alerts_fixed_order :
    (∀ (m : Metrics) (s : Settings),
        check_alerts m s =
          (if cpuBreached m s then [Alert.cpuHigh m.cpu_percent] else [])
            ++ (if ramBreached m s then [Alert.ramHigh m.ram_percent] else [])
            ++ (if diskBreached m s then [Alert.diskFull m.disk_percent] else [])
            ++ (if tempBreached m s then [Alert.tempHigh (m.cpu_temp.getD 0)] else []))
    ∧ check_alerts exampleMetricsC2 defaultSettings =
        [Alert.cpuHigh 85, Alert.diskFull 95] :=
  ⟨check_alerts_eq_segments, by decide⟩

/-- C3 fails on the code: a present-but-zero temperature reading is short-circuited
by the Python truthiness test in `check_alerts` (line 70 of `collector.py`), so
with a threshold of 0 it produces no temperature alert at all, although the claim
demands one. -/
theorem check_alerts_zero_temp_counterexample :
    zeroTempReadings.cpu_temp = some 0 ∧
    zeroTempSettings.temp_alert_threshold ≤ 0 ∧
    check_alerts zeroTempReadings zeroTempSettings = [] := by
  refine ⟨rfl, by norm_num [zeroTempSettings, defaultSettings], ?_⟩
  decide

/-- C3 (amended): a present-but-zero temperature reading is treated exactly like
an absent one — `check_alerts` emits no temperature alert for it whatever the
threshold, and it never errors (the evaluator is a total function); a present
nonzero reading is compared normally against the threshold. -/
theorem check_alerts_zero_temp_amended :
    (∀ (m : Metrics) (s : Settings),
        m.cpu_temp = none ∨ m.cpu_temp = some 0 →
        ∀ a ∈ check_alerts m s, isTempAlert a = false) ∧
    (∀ (m : Metrics) (s : Settings) (v : ℚ),
        m.cpu_temp = some v → v ≠ 0 →
        (Alert.tempHigh v ∈ check_alerts m s ↔ v ≥ s.temp_alert_threshold)) := by
  constructor
  · intro m s hm a ha
    rw [check_alerts_eq_segments] at ha
    have ht : ¬ tempBreached m s := by
      rcases hm with h | h <;> simp [tempBreached, h]
    rw [if_neg ht, List.append_nil] at ha
    simp only [List.mem_append] at ha
    rcases ha with (ha | ha) | ha <;> split_ifs at ha <;>
      simp_all [isTempAlert]
  · intro m s v hm hv
    have ht : tempBreached m s ↔ v ≥ s.temp_alert_threshold := by
      simp [tempBreached, hm, hv]
    rw [check_alerts_eq_segments]
    split_ifs with h1 h2 h3 h4 <;> simp_all [hm]

/-- `ConnectionManager.disconnect` from `backend/app/websocket.py`: remove the
handle from `active_connections` if it is present, otherwise do nothing. -/
def disconnect (active_connections : List ℕ) (websocket : ℕ) : List ℕ :=
  if websocket ∈ active_connections then active_connections.erase websocket
  else active_connections

/-- The observable outcome of one `ConnectionManager.broadcast` call: the send
attempts made (handle paired with whether its send succeeded, in registry
order) and the live set left behind. -/
structure BroadcastResult where
  attempts : List (ℕ × Bool)
  active_after : List ℕ
deriving DecidableEq

/-- `ConnectionManager.broadcast` from `backend/app/websocket.py`: an early
return when the registry is empty; otherwise one send attempt per registered
handle in order, failures collected into `disconnected` in encounter order,
and after the delivery pass each failed handle is removed from
`active_connections` (guarded by a membership test, as in the source). -/
def broadcast (active_connections : List ℕ) (sendOk : ℕ → Bool) : BroadcastResult :=
  if active_connections.isEmpty then
    { attempts := [], active_after := active_connections }
  else
    let disconnected := active_connections.filter (fun c => !sendOk c)
    { attempts := active_connections.map (fun c => (c, sendOk c))
      active_after :=
        disconnected.foldl
          (fun acc conn => if conn ∈ acc then acc.erase conn else acc)
          active_connections }

/-- The removal loop at the end of `broadcast` is exactly list difference:
erasing each element of `ds` in turn (the membership guard is redundant
because `erase` is the identity on absent elements). -/
theorem foldl_guarded_erase_eq_diff (ds l : List ℕ) :
    ds.foldl (fun acc conn => if conn ∈ acc then acc.erase conn else acc) l
      = l.diff ds := by
  induction ds generalizing l with
  | nil => rfl
  | cons c ds ih =>
      rw [List.foldl_cons, List.diff_cons, ← ih (l.erase c)]
      by_cases h : c ∈ l
      · rw [if_pos h]
      · rw [if_neg h, List.erase_of_not_mem h]

/-- C1: for every broadcast over a duplicate-free registry, a delivery is
attempted to every connection registered at the start of the call (in registry
order, with its success recorded), and the registry afterwards holds exactly
the connections whose delivery succeeded, in their original order. -/
theorem broadcast_attempts_all_and_prunes_failures
    (active : List ℕ) (sendOk : ℕ → Bool) (h : active.Nodup) :
    (broadcast active sendOk).attempts = active.map (fun c => (c, sendOk c)) ∧
    (broadcast active sendOk).active_after = active.filter (fun c => sendOk c) := by
  by_cases he : active.isEmpty = true
  · have h0 : active = [] := List.isEmpty_iff.mp he
    subst h0
    exact ⟨rfl, rfl⟩
  · unfold broadcast
    rw [if_neg he]
    refine ⟨rfl, ?_⟩
    show (active.filter (fun c => !sendOk c)).foldl
        (fun acc conn => if conn ∈ acc then acc.erase conn else acc) active
      = active.filter (fun c => sendOk c)
    rw [foldl_guarded_erase_eq_diff, List.Nodup.diff_eq_filter h]
    refine List.filter_congr ?_
    intro c hc
    cases hs : sendOk c <;> simp [List.mem_filter, hc, hs]

/-- Witness for C1 at the spec's 3-connection example: sends to connections 1,
2, 3 where only connection 2's delivery fails still attempt (and succeed at)
connections 1 and 3, and connection 2 alone is pruned from the registry. -/
theorem broadcast_attempts_all_and_prunes_failures_witness :
    (broadcast [1, 2, 3] (fun c => c != 2)).attempts
        = [(1, true), (2, false), (3, true)] ∧
    (broadcast [1, 2, 3] (fun c => c != 2)).active_after = [1, 3] :=
  ⟨((broadcast_attempts_all_and_prunes_failures [1, 2, 3] (fun c => c != 2)
      (by decide)).1).trans (by decide),
   ((broadcast_attempts_all_and_prunes_failures [1, 2, 3] (fun c => c != 2)
      (by decide)).2).trans (by decide)⟩

/-- C7: unregistering a handle that is not in the live set leaves the set
unchanged (and, the model being a total function, never raises); on a
duplicate-free registry a second `disconnect` with the same handle is a no-op,
so `disconnect` is idempotent. -/
theorem disconnect_idempotent (active : List ℕ) (websocket : ℕ) :
    (websocket ∉ active → disconnect active websocket = active) ∧
    (active.Nodup →
      disconnect (disconnect active websocket) websocket
        = disconnect active websocket) := by
  constructor
  · intro h
    rw [disconnect, if_neg h]
  · intro hn
    by_cases h : websocket ∈ active
    · have h1 : disconnect active websocket = active.erase websocket := by
        rw [disconnect, if_pos h]
      rw [h1, disconnect, if_neg (List.Nodup.not_mem_erase hn)]
    · have h1 : disconnect active websocket = active := by
        rw [disconnect, if_neg h]
      rw [h1, h1]

/-- Witness for C7: removing the absent handle 5 from the registry `[1, 2]` is
a no-op, and removing handle 1 twice equals removing it once. -/
theorem disconnect_idempotent_witness :
    disconnect [1, 2] 5 = [1, 2] ∧
    disconnect (disconnect [1, 2] 1) 1 = disconnect [1, 2] 1 :=
  ⟨(disconnect_idempotent [1, 2] 5).1 (by decide),
   (disconnect_idempotent [1, 2] 1).2 (by decide)⟩

/-- C10: `check_alerts` always returns at most four alerts, at most one per
metric (and, the model being a total function, it never raises); `broadcast`
on an empty live set is a no-op that attempts no send and leaves the live set
empty. -/
theorem check_alerts_bounded_and_broadcast_empty :
    (∀ (m : Metrics) (s : Settings),
        (check_alerts m s).length ≤ 4 ∧
        (check_alerts m s).countP isCpuAlert ≤ 1 ∧
        (check_alerts m s).countP isRamAlert ≤ 1 ∧
        (check_alerts m s).countP isDiskAlert ≤ 1 ∧
        (check_alerts m s).countP isTempAlert ≤ 1) ∧
    (∀ sendOk : ℕ → Bool,
        broadcast [] sendOk = { attempts := [], active_after := [] }) := by
  constructor
  · intro m s
    rw [check_alerts_eq_segments]
    split_ifs <;>
      simp [List.countP_cons, List.countP_nil, isCpuAlert, isRamAlert,
        isDiskAlert, isTempAlert]
  · intro sendOk
    rfl

/-- Witness for the amended C3: the zero-reading snapshot gets no temperature
alert even against a zero threshold, and a present 90-degree reading is
compared normally against the default 70-degree threshold. -/
theorem check_alerts_zero_temp_amended_witness :
    (∀ a ∈ check_alerts zeroTempReadings zeroTempSettings, isTempAlert a = false) ∧
    (Alert.tempHigh 90 ∈ check_alerts hotReadings defaultSettings ↔
      (90 : ℚ) ≥ defaultSettings.temp_alert_threshold) :=
  ⟨check_alerts_zero_temp_amended.1 zeroTempReadings zeroTempSettings (Or.inr rfl),
   check_alerts_zero_temp_amended.2 hotReadings defaultSettings 90 rfl (by norm_num)⟩

/-- The outcome of the `try`/`except` body of one loop iteration in
`backend/app/main.py`: either the tick completed, or it raised and the
`except Exception` arm logged it. -/
inductive TickResult
  | ok
  | failed (msg : String)
deriving DecidableEq

/-- One observable step of a background loop in `backend/app/main.py`. -/
inductive LoopEvent
  | ranTick (n : ℕ) (r : TickResult)
  | slept (seconds : ℕ)
  | exited (n : ℕ)
deriving DecidableEq

/-- The shape shared by `collect_and_store_metrics` and `cleanup_old_metrics`
in `backend/app/main.py`: `while background_task_running:` reads the stop flag
at the top of each iteration; the body runs under `try`/`except Exception`
(its outcome is `tick n`); then the task sleeps for the fixed interval and
loops.  `running n` is the value of `background_task_running` read at the top
of iteration `n`, and `fuel` bounds how many iterations are observed. -/
def loopTrace (interval : ℕ) (running : ℕ → Bool) (tick : ℕ → TickResult) :
    ℕ → ℕ → List LoopEvent
  | 0, _ => []
  | fuel + 1, n =>
      if running n then
        LoopEvent.ranTick n (tick n) :: LoopEvent.slept interval ::
          loopTrace interval running tick fuel (n + 1)
      else [LoopEvent.exited n]

/-- `collect_and_store_metrics`: the sampling loop, sleeping
`settings.collection_interval` seconds between ticks. -/
def collect_and_store_loop (s : Settings) (running : ℕ → Bool)
    (tick : ℕ → TickResult) (fuel n : ℕ) : List LoopEvent :=
  loopTrace s.collection_interval running tick fuel n

/-- `cleanup_old_metrics`: the retention sweeper, sleeping the literal 3600
seconds between sweeps. -/
def cleanup_loop (running : ℕ → Bool) (tick : ℕ → TickResult)
    (fuel n : ℕ) : List LoopEvent :=
  loopTrace 3600 running tick fuel n

/-- A loop trace depends only on the flag readings and tick outcomes from its
starting iteration onwards. -/
theorem loopTrace_congr (interval : ℕ) (r1 r2 : ℕ → Bool)
    (t1 t2 : ℕ → TickResult) :
    ∀ fuel n, (∀ m, n ≤ m → r1 m = r2 m) → (∀ m, n ≤ m → t1 m = t2 m) →
      loopTrace interval r1 t1 fuel n = loopTrace interval r2 t2 fuel n := by
  intro fuel
  induction fuel with
  | zero => intro n _ _ ; rfl
  | succ fuel ih =>
      intro n hr ht
      show (if r1 n then _ else _) = (if r2 n then _ else _)
      rw [hr n le_rfl, ht n le_rfl,
        ih (n + 1) (fun m hm => hr m (le_trans (Nat.le_succ n) hm))
          (fun m hm => ht m (le_trans (Nat.le_succ n) hm))]

/-- C4: while the stop flag is set at the top of iteration `n`, an iteration
whose tick raises (`TickResult.failed e`) produces exactly the same trace as
one whose tick succeeds, apart from the recorded outcome: the error is caught,
the loop sleeps the normal interval, and from iteration `n + 1` on the loop
continues exactly as it would have after a successful tick. -/
theorem collect_loop_survives_tick_error (s : Settings) (running : ℕ → Bool)
    (tick : ℕ → TickResult) (fuel n : ℕ) (hrun : running n = true) (e : String) :
    collect_and_store_loop s running (Function.update tick n (TickResult.failed e))
        (fuel + 1) n =
      LoopEvent.ranTick n (TickResult.failed e) ::
        LoopEvent.slept s.collection_interval ::
          collect_and_store_loop s running tick fuel (n + 1) := by
  unfold collect_and_store_loop
  show (if running n then _ else _) = _
  rw [hrun, if_pos rfl, Function.update_same]
  congr 1
  congr 1
  exact loopTrace_congr s.collection_interval running running _ tick fuel (n + 1)
    (fun m _ => rfl)
    (fun m hm => Function.update_noteq (by omega) _ tick)

/-- Witness for C4: with the flag held up, a first tick that fails with a
store error is logged and the loop still runs the second tick after the
normal 2-second interval. -/
theorem collect_loop_survives_tick_error_witness :
    collect_and_store_loop defaultSettings (fun _ => true)
        (Function.update (fun _ => TickResult.ok) 0 (TickResult.failed "db error")) 2 0 =
      [LoopEvent.ranTick 0 (TickResult.failed "db error"), LoopEvent.slept 2,
       LoopEvent.ranTick 1 TickResult.ok, LoopEvent.slept 2] :=
  (collect_loop_survives_tick_error defaultSettings (fun _ => true)
      (fun _ => TickResult.ok) 1 0 rfl "db error").trans (by rfl)

/-- A loop whose flag reads false at the top of iteration `n` exits there and
then: no tick, no sleep. -/
theorem loopTrace_exits_at_stop (i : ℕ) (running : ℕ → Bool)
    (tick : ℕ → TickResult) (fuel n : ℕ) (h : running n = false) :
    loopTrace i running tick (fuel + 1) n = [LoopEvent.exited n] := by
  show (if running n then _ else _) = _
  rw [h]
  rfl

/-- A loop whose flag reads true at the top of iteration `n` runs the full
iteration — tick, then sleep — before looking at the flag again. -/
theorem loopTrace_runs_full_iteration (i : ℕ) (running : ℕ → Bool)
    (tick : ℕ → TickResult) (fuel n : ℕ) (h : running n = true) :
    loopTrace i running tick (fuel + 1) n =
      LoopEvent.ranTick n (tick n) :: LoopEvent.slept i ::
        loopTrace i running tick fuel (n + 1) := by
  show (if running n then _ else _) = _
  rw [h]
  rfl

/-- While the flag keeps reading true, the loop never exits. -/
theorem loopTrace_no_exit (i : ℕ) (running : ℕ → Bool) (tick : ℕ → TickResult)
    (h : ∀ m, running m = true) :
    ∀ fuel n k, LoopEvent.exited k ∉ loopTrace i running tick fuel n := by
  intro fuel
  induction fuel with
  | zero => intro n k hk ; exact absurd hk (List.not_mem_nil _)
  | succ fuel ih =>
      intro n k hk
      rw [loopTrace_runs_full_iteration i running tick fuel n (h n)] at hk
      simp only [List.mem_cons] at hk
      rcases hk with hk | hk | hk
      · cases hk
      · cases hk
      · exact ih (n + 1) k hk

/-- C8: both background loops read the stop flag at the top of each iteration
and only there: a false reading makes the loop exit at once (no tick, no
sleep); while the flag reads true the loop never exits and each iteration runs
whole; and a flag cleared after iteration `n` is observed at the top of
iteration `n + 1`, so the loop exits after exactly one more interval of sleep. -/
theorem loops_stop_cooperatively (s : Settings) (running : ℕ → Bool)
    (tick sweep : ℕ → TickResult) (fuel n : ℕ) :
    (running n = false →
        collect_and_store_loop s running tick (fuel + 1) n = [LoopEvent.exited n] ∧
        cleanup_loop running sweep (fuel + 1) n = [LoopEvent.exited n]) ∧
    (running n = true → running (n + 1) = false →
        collect_and_store_loop s running tick (fuel + 2) n =
          [LoopEvent.ranTick n (tick n), LoopEvent.slept s.collection_interval,
           LoopEvent.exited (n + 1)] ∧
        cleanup_loop running sweep (fuel + 2) n =
          [LoopEvent.ranTick n (sweep n), LoopEvent.slept 3600,
           LoopEvent.exited (n + 1)]) ∧
    ((∀ m, running m = true) →
        ∀ k, LoopEvent.exited k ∉ collect_and_store_loop s running tick fuel n ∧
          LoopEvent.exited k ∉ cleanup_loop running sweep fuel n) := by
  refine ⟨fun h => ⟨?_, ?_⟩, fun h1 h2 => ⟨?_, ?_⟩, fun hall k => ⟨?_, ?_⟩⟩
  · exact loopTrace_exits_at_stop s.collection_interval running tick fuel n h
  · exact loopTrace_exits_at_stop 3600 running sweep fuel n h
  · show loopTrace s.collection_interval running tick (fuel + 1 + 1) n = _
    rw [loopTrace_runs_full_iteration s.collection_interval running tick (fuel + 1) n h1,
      loopTrace_exits_at_stop s.collection_interval running tick fuel (n + 1) h2]
  · show loopTrace 3600 running sweep (fuel + 1 + 1) n = _
    rw [loopTrace_runs_full_iteration 3600 running sweep (fuel + 1) n h1,
      loopTrace_exits_at_stop 3600 running sweep fuel (n + 1) h2]
  · exact loopTrace_no_exit s.collection_interval running tick hall fuel n k
  · exact loopTrace_no_exit 3600 running sweep hall fuel n k

/-- Witness for C8: with the flag down from the start the sampling loop exits
at once; with the flag cleared after the first iteration it runs exactly one
tick and one 2-second sleep before exiting; with the flag held up the sweeper
never exits within the observed window. -/
theorem loops_stop_cooperatively_witness :
    collect_and_store_loop defaultSettings (fun _ => false) (fun _ => TickResult.ok) 3 0 =
        [LoopEvent.exited 0] ∧
    collect_and_store_loop defaultSettings (fun n => n == 0) (fun _ => TickResult.ok) 3 0 =
        [LoopEvent.ranTick 0 TickResult.ok, LoopEvent.slept 2, LoopEvent.exited 1] ∧
    ∀ k, LoopEvent.exited k ∉ cleanup_loop (fun _ => true) (fun _ => TickResult.ok) 3 0 :=
  ⟨((loops_stop_cooperatively defaultSettings (fun _ => false) (fun _ => TickResult.ok)
      (fun _ => TickResult.ok) 2 0).1 rfl).1,
   ((loops_stop_cooperatively defaultSettings (fun n => n == 0) (fun _ => TickResult.ok)
      (fun _ => TickResult.ok) 1 0).2.1 rfl rfl).1,
   fun k => ((loops_stop_cooperatively defaultSettings (fun _ => true) (fun _ => TickResult.ok)
      (fun _ => TickResult.ok) 3 0).2.2 (fun _ => rfl) k).2⟩

/-- A persisted row of the `metrics` table (`Metric` in
`backend/app/models.py`): a server-assigned id and timestamp (modelled in
integer seconds) plus the numeric snapshot fields. -/
structure Sample where
  id : ℕ
  timestamp : ℤ
  cpu_percent : ℚ
  ram_percent : ℚ
  ram_used_gb : ℚ
  ram_total_gb : ℚ
  disk_percent : ℚ
  disk_used_gb : ℚ
  disk_total_gb : ℚ
  cpu_temp : Option ℚ
  uptime_seconds : ℤ
deriving DecidableEq

/-- The cutoff computed by one sweep of `cleanup_old_metrics`:
`datetime.utcnow() - timedelta(hours=settings.history_retention_hours)`,
with time in seconds and the horizon in hours as in the source. -/
def retentionCutoff (now : ℤ) (history_retention_hours : ℤ) : ℤ :=
  now - 3600 * history_retention_hours

/-- One sweep of `cleanup_old_metrics` over the persisted table:
`delete(Metric).where(Metric.timestamp < cutoff)` keeps exactly the rows whose
timestamp is not strictly before the cutoff, each kept row untouched. -/
def cleanup_sweep (db : List Sample) (now : ℤ) (hours : ℤ) : List Sample :=
  db.filter (fun row => !(decide (row.timestamp < retentionCutoff now hours)))

/-- C5: a sweep at time `now` with horizon `hours` deletes exactly the samples
with timestamp strictly before the cutoff: a row survives iff it was persisted
and its timestamp is not strictly before `now - horizon`, and the surviving
rows are the original rows, unchanged and in their original order. -/
theorem cleanup_sweep_retention (db : List Sample) (now hours : ℤ) :
    (∀ row, row ∈ cleanup_sweep db now hours ↔
        row ∈ db ∧ ¬ row.timestamp < retentionCutoff now hours) ∧
    List.Sublist (cleanup_sweep db now hours) db := by
  constructor
  · intro row
    simp [cleanup_sweep]
  · exact List.filter_sublist db

/-- A 25-hour-old sample (timestamp 0 at now = 90000 s). -/
def staleSample : Sample :=
  { id := 1, timestamp := 0, cpu_percent := 10, ram_percent := 20
    ram_used_gb := 1, ram_total_gb := 8, disk_percent := 30
    disk_used_gb := 15, disk_total_gb := 50, cpu_temp := none
    uptime_seconds := 5 }

/-- A recent sample (timestamp 89000 s). -/
def freshSample : Sample :=
  { staleSample with id := 2, timestamp := 89000 }

/-- Witness for C5 on a two-row table at now = 90000 s with the default
24-hour horizon (cutoff 3600 s): the stale row is deleted, the fresh row
survives unchanged. -/
theorem cleanup_sweep_retention_witness :
    (staleSample ∈ cleanup_sweep [staleSample, freshSample] 90000 24 ↔
        staleSample ∈ [staleSample, freshSample] ∧
          ¬ staleSample.timestamp < retentionCutoff 90000 24) ∧
    cleanup_sweep [staleSample, freshSample] 90000 24 = [freshSample] :=
  ⟨(cleanup_sweep_retention [staleSample, freshSample] 90000 24).1 staleSample,
   by decide⟩

/-- A literal token sent by the server over one WebSocket connection in the
heartbeat loop of `websocket_endpoint` (`backend/app/main.py`). -/
inductive Outbound
  | pong
  | ping
deriving DecidableEq

/-- One iteration's stimulus for the heartbeat loop: either inbound text
arrived within the timeout (paired with whether a reply send would succeed),
or `asyncio.wait_for` timed out (paired with whether the probe send
succeeds). -/
inductive HbEvent
  | received (s : String) (sendOk : Bool)
  | timedOut (pingOk : Bool)
deriving DecidableEq

/-- What one iteration of the heartbeat loop does: which token sends are
attempted, and whether the loop resumes waiting afterwards. -/
structure HbStep where
  sent : List Outbound
  keepOpen : Bool
deriving DecidableEq

/-- One iteration of the `while True` heartbeat loop in `websocket_endpoint`:
an inbound message equal to the literal "ping" is answered with one "pong"
(should that reply send raise, the exception leaves the handler and the
connection closes); any other inbound message gets no reply and the loop
resumes waiting; a timeout sends one probe "ping", and if that send raises
the loop breaks. -/
def heartbeatStep : HbEvent → HbStep
  | HbEvent.received s sendOk =>
      if s = "ping" then { sent := [Outbound.pong], keepOpen := sendOk }
      else { sent := [], keepOpen := true }
  | HbEvent.timedOut pingOk => { sent := [Outbound.ping], keepOpen := pingOk }

/-- The heartbeat loop over a stimulus sequence: iterate `heartbeatStep` until
a step closes the connection — after which nothing further is processed and
the `finally:` block unregisters the handle — or the stimuli run out. -/
def heartbeatRun : List HbEvent → List Outbound × Bool
  | [] => ([], true)
  | e :: es =>
      let st := heartbeatStep e
      if st.keepOpen then
        (st.sent ++ (heartbeatRun es).1, (heartbeatRun es).2)
      else (st.sent, false)

/-- C6: in every heartbeat iteration, an inbound literal "ping" is answered
with exactly one "pong" and the wait resumes; any other inbound message gets
no reply and the connection stays open; a timeout produces exactly one
server-initiated "ping"; and if that probe send fails the loop stops at once —
no further stimulus is consumed before the handle is unregistered. -/
theorem heartbeat_protocol :
    heartbeatStep (HbEvent.received "ping" true) =
        { sent := [Outbound.pong], keepOpen := true } ∧
    (∀ (s : String) (ok : Bool), s ≠ "ping" →
        heartbeatStep (HbEvent.received s ok) = { sent := [], keepOpen := true }) ∧
    heartbeatStep (HbEvent.timedOut true) =
        { sent := [Outbound.ping], keepOpen := true } ∧
    (∀ es, heartbeatRun (HbEvent.timedOut false :: es) = ([Outbound.ping], false)) := by
  refine ⟨rfl, ?_, rfl, ?_⟩
  · intro s ok h
    simp [heartbeatStep, h]
  · intro es
    simp [heartbeatRun, heartbeatStep]

/-- Witness for C6: an inbound "hello" is ignored with the connection left
open, and after a failed probe send the loop stops without touching the next
queued stimulus. -/
theorem heartbeat_protocol_witness :
    heartbeatStep (HbEvent.received "hello" true) = { sent := [], keepOpen := true } ∧
    heartbeatRun [HbEvent.timedOut false, HbEvent.received "ping" true] =
        ([Outbound.ping], false) :=
  ⟨heartbeat_protocol.2.1 "hello" true (by decide),
   heartbeat_protocol.2.2.2 [HbEvent.received "ping" true]⟩

/-- A full snapshot as assembled by `collect_metrics`: the numeric readings
plus the derived alert list added under the `alerts` key. -/
structure Snapshot where
  readings : Metrics
  alerts : List Alert
deriving DecidableEq

/-- `collect_metrics` from `backend/app/collector.py`, with the raw psutil
readings supplied by the environment: the returned dictionary is the readings
together with `alerts = check_alerts(metrics)`. -/
def collect_metrics (readings : Metrics) (settings : Settings) : Snapshot :=
  { readings := readings, alerts := check_alerts readings settings }

/-- A server→viewer WebSocket event as serialized in `backend/app/main.py`. -/
structure WsMessage where
  type : String
  data : Snapshot
  timestamp : String
deriving DecidableEq

/-- The payload literal built each tick in `collect_and_store_metrics`
(lines 70–74 of `main.py`) and handed to `manager.broadcast`. -/
def tick_broadcast_message (metrics : Snapshot) (ts : String) : WsMessage :=
  { type := "metrics", data := metrics, timestamp := ts }

/-- The payload literal sent by `websocket_endpoint` immediately on connect
(lines 173–177 of `main.py`). -/
def initial_connect_message (metrics : Snapshot) (ts : String) : WsMessage :=
  { type := "metrics", data := metrics, timestamp := ts }

/-- C9: every sample-update push — the per-tick broadcast payload and the
initial on-connect payload alike — has type field the literal "metrics", data
field the full snapshot of the tick including its derived alert list, and
timestamp field the generation timestamp string; the two payload shapes are
identical. -/
theorem ws_message_shape :
    ∀ (readings : Metrics) (s : Settings) (ts : String),
      tick_broadcast_message (collect_metrics readings s) ts =
        { type := "metrics"
          data := { readings := readings, alerts := check_alerts readings s }
          timestamp := ts } ∧
      initial_connect_message (collect_metrics readings s) ts =
        tick_broadcast_message (collect_metrics readings s) ts :=
  fun _ _ _ => ⟨rfl, rfl⟩
